import Mathlib

/-!
Verification of the FABOLAS optimization loop (`robo/fmin/fabolas.py`).

The development shallowly embeds the module's two pure helper functions
(`transform`, `retransform`, lines 18-25) over the reals, with `np.rint`
modelled as round-half-to-even, and embeds the `fabolas` driver
(lines 28-256) as a state-passing function over an explicit observation
store.  External collaborators (the objective function, the random
initial-design sampler, the DIRECT maximizer and the projected-incumbent
estimator) are parameters of the run, as the loop only relies on their
interface contracts.  Wall-clock bookkeeping (`time_func_eval`,
`time_overhead`, `runtime`) is not modelled.
-/

namespace Fabolas

noncomputable section

/-- Python `int(x)`: truncation toward zero (floor for nonnegative
arguments, ceiling for negative ones). -/
def pyInt (x : ℝ) : ℤ := if 0 ≤ x then ⌊x⌋ else ⌈x⌉

/-- `np.rint`: round to the nearest integer, ties to the nearest even
integer (banker's rounding). -/
def rint (x : ℝ) : ℤ :=
  if Int.fract x = 1 / 2 then (if Even ⌊x⌋ then ⌊x⌋ else ⌊x⌋ + 1) else round x

/-- `transform(s, s_min, s_max)`, line 18:
`(np.log(s) - np.log(s_min)) / (np.log(s_max) - np.log(s_min))`. -/
def transform (s s_min s_max : ℝ) : ℝ :=
  (Real.log s - Real.log s_min) / (Real.log s_max - Real.log s_min)

/-- `retransform(s_transform, s_min, s_max)`, line 23:
`np.rint(np.exp(s_transform * (np.log(s_max) - np.log(s_min)) + np.log(s_min)))`. -/
def retransform (s_transform s_min s_max : ℝ) : ℝ :=
  ((rint (Real.exp (s_transform * (Real.log s_max - Real.log s_min) + Real.log s_min)) : ℤ) : ℝ)

/-- Python exceptions the `fabolas` driver can raise. -/
inductive PyError where
  | typeError
  | assertionError
  | indexError
  deriving DecidableEq

/-- Parameters of the `fabolas` entry point (line 28).  `burnin`,
`chain_length` and `rng` are forwarded verbatim to external collaborators
and play no role in the control flow, so they are not modelled. -/
structure Params where
  lower : List ℝ
  upper : List ℝ
  s_min : ℝ
  s_max : ℝ
  n_init : ℕ
  num_iterations : ℕ

/-- Instrumentation of the run's interactions with its collaborators:
how many times the objective function was invoked, how many surrogate
models were constructed (lines 111 and 146), how many `train` calls were
issued, and the `proj_value` argument of each call to
`projected_incumbent_estimation`, in order. -/
structure Trace where
  objCalls : ℕ
  modelsCreated : ℕ
  trainCalls : ℕ
  estimateProjs : List ℝ

/-- The loop's mutable state: the Observation Store `X`, `y`, `c`
(lines 77-79), the incumbent trajectory (line 74), and the interaction
trace. -/
structure RunState where
  X : List (List ℝ)
  y : List ℝ
  c : List ℝ
  incumbents : List (List ℝ)
  trace : Trace

/-- The record returned by `fabolas` (lines 250-256); the timing series
are not modelled. -/
structure RunResult where
  x_opt : List ℝ
  trajectory : List (List ℝ)

/-- External collaborators, specified only through the interface the loop
uses:
* `objective`: the user objective, `(configuration, fidelity) -> (value, cost)`;
* `drawConfig`: `init_random_uniform(lower, upper, 1, rng)[0]` at round `i`;
* `maximize`: `Direct.maximize()` after the acquisition function was
  updated with models trained on the current `(X, y, c)`;
* `estimate`: `projected_incumbent_estimation(model, configs, proj_value)`
  where the model was trained on the current data and `configs = X[:, :-1]`. -/
structure Externals where
  objective : List ℝ → ℝ → ℝ × ℝ
  drawConfig : ℕ → List ℝ
  maximize : List (List ℝ) → List ℝ → List ℝ → List ℝ
  estimate : List (List ℝ) → ℝ → List ℝ × ℝ

/-- State before any work: empty store, empty trajectory, no calls. -/
def initState : RunState :=
  { X := [], y := [], c := [], incumbents := [],
    trace := { objCalls := 0, modelsCreated := 0, trainCalls := 0, estimateProjs := [] } }

/-- Construction of `model_objective` and `model_cost` (lines 111-155),
performed after the two asserts and before the loops. -/
def buildModels (st : RunState) : RunState :=
  { st with trace := { st.trace with modelsCreated := st.trace.modelsCreated + 2 } }

/-- `subsets = [256, 128, 64, 32]` (line 173). -/
def subsets : List ℕ := [256, 128, 64, 32]

/-- Line 178: `s = int(s_max / float(subsets[i % len(subsets)]))`. -/
def selectS (s_max : ℝ) (i : ℕ) : ℤ :=
  pyInt (s_max / ((subsets.getD (i % subsets.length) 0 : ℕ) : ℝ))

/-- Line 192: `np.argmin(y)`, the index of the first minimum of `y`. -/
def argminIdx : List ℝ → ℕ
  | [] => 0
  | [_] => 0
  | a :: b :: rest =>
    let j := argminIdx (b :: rest)
    if a ≤ (b :: rest).getD j 0 then 0 else j + 1

/-- Line 185 reads `s_transformed = transform(s)`: a single positional
argument is passed to `transform`, whose signature (line 18) has the three
required parameters `s`, `s_min`, `s_max` and no defaults, so Python
raises `TypeError` before the function body is entered. -/
def transformCallLine185 (_s : ℝ) : Except PyError ℝ := .error .typeError

/-- One initial-design round (lines 175-196).  The fidelity is selected
from the cyclic schedule, a configuration is drawn, the objective is
evaluated, and then the round attempts `transform(s)`; the remainder
(lines 186-193: append the augmented point and the raw-argmin incumbent)
is reached only if that call returns. -/
def initRound (ext : Externals) (p : Params) (i : ℕ) (st : RunState) :
    Except (PyError × RunState) RunState :=
  let s : ℤ := selectS p.s_max i
  let x := ext.drawConfig i
  let fc := ext.objective x (s : ℝ)
  let st1 : RunState :=
    { st with trace := { st.trace with objCalls := st.trace.objCalls + 1 } }
  match transformCallLine185 (s : ℝ) with
  | .error e => .error (e, st1)
  | .ok s_transformed =>
    let config := x ++ [s_transformed]
    let st2 : RunState :=
      { st1 with X := st1.X ++ [config], y := st1.y ++ [fc.1], c := st1.c ++ [fc.2] }
    let best_idx := argminIdx st2.y
    let incumbent := (st2.X.getD best_idx []) ++ [p.s_max]
    .ok { st2 with incumbents := st2.incumbents ++ [incumbent] }

/-- One model-guided round (lines 202-240): train both models on the full
store (lines 208-209), then evaluate `X[:, :-1]` for the incumbent
projection (line 213).  When the store is empty (the `n_init = 0` case,
line 198 makes `X` the 1-dimensional shape-`(0,)` array `np.array([])`),
that two-index slice raises `IndexError` during argument evaluation,
before `projected_incumbent_estimation` is invoked; on a nonempty store
`X` is 2-dimensional and the slice drops the fidelity column.  The rest
of the round records the projected incumbent at `proj_value = s_max`,
maximizes the acquisition function, maps the candidate's fidelity back
through `retransform`, evaluates the objective there, and appends the
candidate (with its transformed fidelity unchanged) together with the
observed value and cost. -/
def guidedRound (ext : Externals) (p : Params) (st : RunState) :
    Except (PyError × RunState) RunState :=
  let st1 : RunState :=
    { st with trace := { st.trace with trainCalls := st.trace.trainCalls + 2 } }
  match st1.X with
  | [] => .error (.indexError, st1)
  | _ :: _ =>
    let est := ext.estimate (st1.X.map List.dropLast) p.s_max
    let st2 : RunState :=
      { st1 with incumbents := st1.incumbents ++ [est.1],
                 trace := { st1.trace with
                   estimateProjs := st1.trace.estimateProjs ++ [p.s_max] } }
    let new_x := ext.maximize st2.X st2.y st2.c
    let s := retransform (new_x.getLastD 0) p.s_min p.s_max
    let yc := ext.objective new_x.dropLast s
    .ok { st2 with X := st2.X ++ [new_x], y := st2.y ++ [yc.1], c := st2.c ++ [yc.2],
                   trace := { st2.trace with objCalls := st2.trace.objCalls + 1 } }

/-- Round dispatch: rounds `0 .. n_init-1` are initial-design rounds
(line 175), the remaining rounds up to `num_iterations - 1` are
model-guided (line 202). -/
def roundAt (ext : Externals) (p : Params) (i : ℕ) (st : RunState) :
    Except (PyError × RunState) RunState :=
  if i < p.n_init then initRound ext p i st else guidedRound ext p st

/-- State after the first `k` rounds, starting from the state in which
both surrogate models have been built. -/
def stateAfter (ext : Externals) (p : Params) : ℕ → Except (PyError × RunState) RunState
  | 0 => .ok (buildModels initState)
  | k + 1 => (stateAfter ext p k).bind (roundAt ext p k)

/-- Finalization (lines 242-256): train the objective model once more
(line 243), then evaluate `X[:, :-1]` for the final projection
(line 244).  As at line 213, this two-index slice raises `IndexError`
when the store is empty (1-dimensional `np.array([])`), before the
estimator is invoked.  Otherwise: project the incumbent at
`proj_value = 1`, overwrite its fidelity entry with `s_max`
(`incumbent[-1] = s_max`, itself an `IndexError` on an empty vector),
append it to the trajectory and package the results, with
`x_opt = incumbent[:-1]`. -/
def finalize (ext : Externals) (p : Params) (st : RunState) :
    Except (PyError × RunState) (RunResult × RunState) :=
  let st1 : RunState :=
    { st with trace := { st.trace with trainCalls := st.trace.trainCalls + 1 } }
  match st1.X with
  | [] => .error (.indexError, st1)
  | _ :: _ =>
    let est := ext.estimate (st1.X.map List.dropLast) 1
    let st2 : RunState :=
      { st1 with trace := { st1.trace with
          estimateProjs := st1.trace.estimateProjs ++ [(1 : ℝ)] } }
    match est.1 with
    | [] => .error (.indexError, st2)
    | _ :: _ =>
      let incumbent := est.1.dropLast ++ [p.s_max]
      let st3 : RunState := { st2 with incumbents := st2.incumbents ++ [incumbent] }
      .ok ({ x_opt := incumbent.dropLast, trajectory := st3.incumbents }, st3)

/-- The `fabolas` driver (lines 28-256): the two asserts (lines 62-63) in
source order, then model construction, `num_iterations` rounds, and
finalization. -/
def fabolasRun (ext : Externals) (p : Params) :
    Except (PyError × RunState) (RunResult × RunState) :=
  if p.n_init ≤ p.num_iterations then
    if p.lower.length = p.upper.length then
      (stateAfter ext p p.num_iterations).bind (finalize ext p)
    else .error (.assertionError, initState)
  else .error (.assertionError, initState)

/-- The state in which every run with `n_init ≥ 1` aborts: round 0 has
invoked the objective once and then hit the `TypeError` at line 185, with
the Observation Store and the trajectory still empty. -/
def abortState : RunState :=
  { X := [], y := [], c := [], incumbents := [],
    trace := { objCalls := 1, modelsCreated := 2, trainCalls := 0, estimateProjs := [] } }

/-- Concrete collaborators for evaluating the run at specific inputs:
a constant objective returning value 0 at cost 1, a constant sampler,
a maximizer proposing the augmented point `[7, 9]`, and an estimator
returning the configuration `[3, 4]` with predicted value 0. -/
def extW : Externals :=
  { objective := fun _ _ => (0, 1), drawConfig := fun _ => [5],
    maximize := fun _ _ _ => [7, 9], estimate := fun _ _ => ([3, 4], 0) }

/-- `D = 1`, `s_min = 1`, `s_max = 256`, `n_init = 1`, `num_iterations = 1`. -/
def pW1 : Params := { lower := [0], upper := [1], s_min := 1, s_max := 256,
                      n_init := 1, num_iterations := 1 }

/-- `n_init = 1`, `num_iterations = 2`. -/
def pW2 : Params := { lower := [0], upper := [1], s_min := 1, s_max := 256,
                      n_init := 1, num_iterations := 2 }

/-- `n_init = 5 > num_iterations = 3`: violates the first assert. -/
def pW4 : Params := { lower := [0], upper := [1], s_min := 1, s_max := 256,
                      n_init := 5, num_iterations := 3 }

/-- `n_init = 0`, `num_iterations = 2`: the run enters the model-guided
loop with the empty shape-`(0,)` store and dies at line 213. -/
def pW5 : Params := { lower := [0], upper := [1], s_min := 1, s_max := 256,
                      n_init := 0, num_iterations := 2 }

/-- `n_init = 0`, `num_iterations = 0`: the run goes straight to
finalization with the empty shape-`(0,)` store and dies at line 244. -/
def pW6 : Params := { lower := [0], upper := [1], s_min := 1, s_max := 256,
                      n_init := 0, num_iterations := 0 }

/-- `n_init = 2`, `num_iterations = 2`. -/
def pW7 : Params := { lower := [0], upper := [1], s_min := 1, s_max := 256,
                      n_init := 2, num_iterations := 2 }

/-- `n_init = 0`, `num_iterations = 1`: one model-guided round, which
dies at line 213. -/
def pW10 : Params := { lower := [0], upper := [1], s_min := 1, s_max := 256,
                       n_init := 0, num_iterations := 1 }

/-- The state in which every `n_init = 0` run with `num_iterations ≥ 1`
aborts: the first model-guided round has trained both models and then hit
the `IndexError` from `X[:, :-1]` (line 213) on the empty store; the
estimator was never called. -/
def guidedAbortState : RunState :=
  { X := [], y := [], c := [], incumbents := [],
    trace := { objCalls := 0, modelsCreated := 2, trainCalls := 2, estimateProjs := [] } }

/-- The state in which every `n_init = 0`, `num_iterations = 0` run
aborts: finalization has trained the objective model and then hit the
`IndexError` from `X[:, :-1]` (line 244) on the empty store; the
estimator was never called. -/
def finalAbortState : RunState :=
  { X := [], y := [], c := [], incumbents := [],
    trace := { objCalls := 0, modelsCreated := 2, trainCalls := 1, estimateProjs := [] } }

/-- Whether an `Except` outcome is a success. -/
def exOk {ε α : Type} : Except ε α → Bool
  | .ok _ => true
  | .error _ => false

/-- The loop state carried by either outcome of the run: the final state
on success, the state at the uncaught exception on failure. -/
def outState : Except (PyError × RunState) (RunResult × RunState) → RunState
  | .ok x => x.2
  | .error e => e.2

/-- When the fractional part is below one half, rounding half-up agrees
with the floor. -/
lemma round_eq_floor_of_fract_lt_half {x : ℝ} (h : Int.fract x < 1 / 2) :
    round x = ⌊x⌋ := by
  rw [round_eq]
  have hx : x + 1 / 2 = Int.fract x + 1 / 2 + (⌊x⌋ : ℝ) := by
    have := Int.floor_add_fract x
    linarith
  rw [hx, Int.floor_add_int]
  have h0 : ⌊Int.fract x + 1 / 2⌋ = 0 := by
    rw [Int.floor_eq_zero_iff]
    constructor
    · have := Int.fract_nonneg x
      linarith
    · linarith
  omega

/-- When the fractional part is above one half, rounding half-up agrees
with the floor plus one. -/
lemma round_eq_floor_add_one_of_half_lt_fract {x : ℝ} (h : 1 / 2 < Int.fract x) :
    round x = ⌊x⌋ + 1 := by
  rw [round_eq]
  have hx : x + 1 / 2 = Int.fract x + 1 / 2 + (⌊x⌋ : ℝ) := by
    have := Int.floor_add_fract x
    linarith
  rw [hx, Int.floor_add_int]
  have h1 : ⌊Int.fract x + 1 / 2⌋ = 1 := by
    rw [Int.floor_eq_iff]
    constructor
    · push_cast
      linarith
    · have := Int.fract_lt_one x
      push_cast
      linarith
  omega

/-- `np.rint` is the identity on integers. -/
lemma rint_intCast (n : ℤ) : rint ((n : ℝ)) = n := by
  unfold rint
  rw [Int.fract_intCast]
  norm_num [round_intCast]

/-- `np.rint` never rounds below the floor. -/
lemma floor_le_rint (x : ℝ) : ⌊x⌋ ≤ rint x := by
  unfold rint
  split
  · split <;> omega
  · rename_i hne
    rcases lt_or_gt_of_ne hne with hlt | hgt
    · rw [round_eq_floor_of_fract_lt_half hlt]
    · rw [round_eq_floor_add_one_of_half_lt_fract hgt]
      omega

/-- `np.rint` never rounds above the floor plus one. -/
lemma rint_le_floor_add_one (x : ℝ) : rint x ≤ ⌊x⌋ + 1 := by
  unfold rint
  split
  · split <;> omega
  · rename_i hne
    rcases lt_or_gt_of_ne hne with hlt | hgt
    · rw [round_eq_floor_of_fract_lt_half hlt]
      omega
    · rw [round_eq_floor_add_one_of_half_lt_fract hgt]

/-- `np.rint` is monotone. -/
lemma rint_mono {x y : ℝ} (h : x ≤ y) : rint x ≤ rint y := by
  have hf : ⌊x⌋ ≤ ⌊y⌋ := Int.floor_mono h
  rcases lt_or_eq_of_le hf with hlt | heq
  · calc rint x ≤ ⌊x⌋ + 1 := rint_le_floor_add_one x
    _ ≤ ⌊y⌋ := by omega
    _ ≤ rint y := floor_le_rint y
  · have hfr : Int.fract x ≤ Int.fract y := by
      have hx := Int.floor_add_fract x
      have hy := Int.floor_add_fract y
      have : ((⌊x⌋ : ℤ) : ℝ) = ((⌊y⌋ : ℤ) : ℝ) := by rw [heq]
      linarith
    unfold rint
    by_cases hx : Int.fract x = 1 / 2 <;> by_cases hy : Int.fract y = 1 / 2
    · rw [if_pos hx, if_pos hy, heq]
    · rw [if_pos hx, if_neg hy]
      have hgt : 1 / 2 < Int.fract y := lt_of_le_of_ne (hx ▸ hfr) (Ne.symm hy)
      rw [round_eq_floor_add_one_of_half_lt_fract hgt, heq]
      split <;> omega
    · rw [if_neg hx, if_pos hy]
      have hltf : Int.fract x < 1 / 2 := lt_of_le_of_ne (hy ▸ hfr) hx
      rw [round_eq_floor_of_fract_lt_half hltf, heq]
      split <;> omega
    · rw [if_neg hx, if_neg hy, round_eq, round_eq]
      exact Int.floor_mono (by linarith)

/-- Every initial-design round aborts with `TypeError` at line 185, right
after having invoked the objective function once. -/
lemma initRound_error (ext : Externals) (p : Params) (i : ℕ) (st : RunState) :
    initRound ext p i st =
      .error (.typeError,
        { st with trace := { st.trace with objCalls := st.trace.objCalls + 1 } }) :=
  rfl

/-- If the first round is an initial-design round, the loop aborts there:
after `k ≥ 1` rounds the state is the `TypeError` abort state. -/
lemma stateAfter_crash (ext : Externals) (p : Params) (hn : 1 ≤ p.n_init) :
    ∀ k, 1 ≤ k → stateAfter ext p k = .error (.typeError, abortState) := by
  intro k
  induction k with
  | zero => omega
  | succ k ih =>
    intro _
    by_cases hk : 1 ≤ k
    · show (stateAfter ext p k).bind (roundAt ext p k) = _
      rw [ih hk]
      rfl
    · have hk0 : k = 0 := by omega
      subst hk0
      show (stateAfter ext p 0).bind (roundAt ext p 0) = _
      have h0 : (0 : ℕ) < p.n_init := hn
      simp only [stateAfter, Except.bind, roundAt, if_pos h0, initRound_error]
      rfl

/-- If the first round is model-guided (`n_init = 0`), the loop aborts
there on the empty store: after `k ≥ 1` rounds the state is the
`IndexError` abort state of line 213. -/
lemma stateAfter_guided_crash (ext : Externals) (p : Params) (hn : p.n_init = 0) :
    ∀ k, 1 ≤ k → stateAfter ext p k = .error (.indexError, guidedAbortState) := by
  intro k
  induction k with
  | zero => omega
  | succ k ih =>
    intro _
    by_cases hk : 1 ≤ k
    · show (stateAfter ext p k).bind (roundAt ext p k) = _
      rw [ih hk]
      rfl
    · have hk0 : k = 0 := by omega
      subst hk0
      show (stateAfter ext p 0).bind (roundAt ext p 0) = _
      have h0 : ¬ (0 : ℕ) < p.n_init := by omega
      simp only [stateAfter, Except.bind, roundAt, if_neg h0]
      rfl

/-- Exhaustive case analysis of the run: every execution aborts, in one
of exactly four states — an assert failure (lines 62-63), the `TypeError`
of line 185 (`n_init ≥ 1`), the `IndexError` of line 213 (`n_init = 0`,
`num_iterations ≥ 1`), or the `IndexError` of line 244 (`n_init = 0`,
`num_iterations = 0`).  In particular no run ever returns a result. -/
lemma fabolasRun_error_cases (ext : Externals) (p : Params) :
    fabolasRun ext p = .error (.assertionError, initState) ∨
      fabolasRun ext p = .error (.typeError, abortState) ∨
      fabolasRun ext p = .error (.indexError, guidedAbortState) ∨
      fabolasRun ext p = .error (.indexError, finalAbortState) := by
  unfold fabolasRun
  by_cases h1 : p.n_init ≤ p.num_iterations
  · rw [if_pos h1]
    by_cases h2 : p.lower.length = p.upper.length
    · rw [if_pos h2]
      by_cases hn : 1 ≤ p.n_init
      · right; left
        rw [stateAfter_crash ext p hn p.num_iterations (le_trans hn h1)]
        rfl
      · have hn0 : p.n_init = 0 := by omega
        by_cases hm : 1 ≤ p.num_iterations
        · right; right; left
          rw [stateAfter_guided_crash ext p hn0 p.num_iterations hm]
          rfl
        · have hm0 : p.num_iterations = 0 := by omega
          right; right; right
          rw [hm0]
          rfl
    · rw [if_neg h2]
      left
      rfl
  · rw [if_neg h1]
    left
    rfl

/-- Python `int` agrees with the floor on nonnegative arguments. -/
lemma pyInt_eq_floor {x : ℝ} (h : 0 ≤ x) : pyInt x = ⌊x⌋ := if_pos h

/-- Doubling a value that is at least one strictly increases its floor. -/
lemma floor_lt_floor_two_mul {x : ℝ} (h : 1 ≤ x) : ⌊x⌋ < ⌊2 * x⌋ := by
  have h1 : (1 : ℤ) ≤ ⌊x⌋ := Int.le_floor.2 (by exact_mod_cast h)
  have h2 : (2 * ⌊x⌋ : ℤ) ≤ ⌊2 * x⌋ := by
    apply Int.le_floor.2
    push_cast
    have := Int.floor_le x
    linarith
  omega

/-- The initial-design fidelity schedule cycles with period 4
(`subsets` has four entries and is indexed modulo its length). -/
lemma selectS_period (s_max : ℝ) (i : ℕ) : selectS s_max (i + 4) = selectS s_max i := by
  have hlen : subsets.length = 4 := rfl
  simp [selectS, hlen, Nat.add_mod_right]

/-- Round 0 picks `int(s_max / 256)`. -/
lemma selectS_zero (s_max : ℝ) : selectS s_max 0 = pyInt (s_max / 256) := by
  norm_num [selectS, subsets]

/-- Round 1 picks `int(s_max / 128)`. -/
lemma selectS_one (s_max : ℝ) : selectS s_max 1 = pyInt (s_max / 128) := by
  norm_num [selectS, subsets]

/-- Round 2 picks `int(s_max / 64)`. -/
lemma selectS_two (s_max : ℝ) : selectS s_max 2 = pyInt (s_max / 64) := by
  norm_num [selectS, subsets]

/-- Round 3 picks `int(s_max / 32)`. -/
lemma selectS_three (s_max : ℝ) : selectS s_max 3 = pyInt (s_max / 32) := by
  norm_num [selectS, subsets]

end

end Fabolas

/-- C3: for `0 < s_min < s_max` and an integer `s` in `[s_min, s_max]`,
`retransform (transform s s_min s_max) s_min s_max = s`: the fidelity
transform round-trips up to rounding of the raw fidelity. -/
theorem C3_transform_retransform_roundtrip (s_min s_max : ℝ) (s : ℤ)
    (h0 : 0 < s_min) (h1 : s_min < s_max) (h2 : s_min ≤ (s : ℝ)) (h3 : (s : ℝ) ≤ s_max) :
    Fabolas.retransform (Fabolas.transform (s : ℝ) s_min s_max) s_min s_max = (s : ℝ) := by
  have hd : 0 < Real.log s_max - Real.log s_min :=
    sub_pos.2 (Real.log_lt_log h0 h1)
  have hs : (0 : ℝ) < (s : ℝ) := lt_of_lt_of_le h0 h2
  unfold Fabolas.retransform Fabolas.transform
  rw [div_mul_cancel₀ _ (ne_of_gt hd), sub_add_cancel, Real.exp_log hs,
    Fabolas.rint_intCast]

/-- Witness for C3 at `s_min = 1`, `s_max = 4`, `s = 2`. -/
theorem C3_transform_retransform_roundtrip_witness :
    (0 : ℝ) < 1 ∧ (1 : ℝ) < 4 ∧ (1 : ℝ) ≤ ((2 : ℤ) : ℝ) ∧ ((2 : ℤ) : ℝ) ≤ 4 ∧
      Fabolas.retransform (Fabolas.transform ((2 : ℤ) : ℝ) 1 4) 1 4 = ((2 : ℤ) : ℝ) :=
  ⟨by norm_num, by norm_num, by norm_num, by norm_num,
    C3_transform_retransform_roundtrip 1 4 2 (by norm_num) (by norm_num)
      (by norm_num) (by norm_num)⟩

/-- C9: for fixed `0 < s_min < s_max`, `transform` is strictly increasing
in `s` on `[s_min, s_max]`, and `retransform` is monotone (nondecreasing)
in its first argument on `[0, 1]`. -/
theorem C9_transform_retransform_monotone (s_min s_max : ℝ)
    (h0 : 0 < s_min) (h1 : s_min < s_max) :
    (∀ s1 s2 : ℝ, s_min ≤ s1 → s1 < s2 → s2 ≤ s_max →
        Fabolas.transform s1 s_min s_max < Fabolas.transform s2 s_min s_max) ∧
    (∀ t1 t2 : ℝ, 0 ≤ t1 → t1 ≤ t2 → t2 ≤ 1 →
        Fabolas.retransform t1 s_min s_max ≤ Fabolas.retransform t2 s_min s_max) := by
  have hd : 0 < Real.log s_max - Real.log s_min :=
    sub_pos.2 (Real.log_lt_log h0 h1)
  constructor
  · intro s1 s2 ha hb _
    unfold Fabolas.transform
    have hlog : Real.log s1 < Real.log s2 :=
      Real.log_lt_log (lt_of_lt_of_le h0 ha) hb
    exact (div_lt_div_iff_of_pos_right hd).2 (by linarith)
  · intro t1 t2 _ hb _
    unfold Fabolas.retransform
    have harg : t1 * (Real.log s_max - Real.log s_min) + Real.log s_min ≤
        t2 * (Real.log s_max - Real.log s_min) + Real.log s_min := by
      have := mul_le_mul_of_nonneg_right hb (le_of_lt hd)
      linarith
    exact_mod_cast Fabolas.rint_mono (Real.exp_le_exp.2 harg)

/-- Witness for C9 at `s_min = 1`, `s_max = 4`. -/
theorem C9_transform_retransform_monotone_witness :
    ((0 : ℝ) < 1 ∧ (1 : ℝ) < 4) ∧
      Fabolas.transform 2 1 4 < Fabolas.transform 3 1 4 ∧
      Fabolas.retransform 0 1 4 ≤ Fabolas.retransform 1 1 4 :=
  ⟨⟨by norm_num, by norm_num⟩,
    (C9_transform_retransform_monotone 1 4 (by norm_num) (by norm_num)).1 2 3
      (by norm_num) (by norm_num) (by norm_num),
    (C9_transform_retransform_monotone 1 4 (by norm_num) (by norm_num)).2 0 1
      (by norm_num) (by norm_num) (by norm_num)⟩

/-- C1 (code bug): the spec says each initial-design round appends the
augmented point and the observed (value, cost) to the Observation Store,
but the code aborts with `TypeError` at the one-argument call
`transform(s)` (line 185) before the append (lines 186-189), leaving the
store empty.  Evaluation at a concrete failing input: `n_init = 1`,
`num_iterations = 1`, `lower = [0]`, `upper = [1]`, `s_min = 1`,
`s_max = 256`. -/
theorem C1_initial_round_never_appends :
    Fabolas.fabolasRun Fabolas.extW Fabolas.pW1 =
        .error (.typeError, Fabolas.abortState) ∧
      Fabolas.abortState.X = [] ∧ Fabolas.abortState.y = [] ∧
      Fabolas.abortState.c = [] ∧ Fabolas.abortState.trace.objCalls = 1 :=
  ⟨rfl, rfl, rfl, rfl, rfl⟩

/-- C2: for every run that passes the precondition checks and has
`n_init ≥ 1`, the first initial-design round invokes the objective exactly
once and then raises `TypeError` at `transform(s)`, so the run aborts with
the Observation Store and the trajectory still empty. -/
theorem C2_first_round_typeerror (ext : Fabolas.Externals) (p : Fabolas.Params)
    (h1 : p.n_init ≤ p.num_iterations) (h2 : p.lower.length = p.upper.length)
    (h3 : 1 ≤ p.n_init) :
    Fabolas.fabolasRun ext p = .error (.typeError, Fabolas.abortState) ∧
      Fabolas.abortState.trace.objCalls = 1 ∧ Fabolas.abortState.X = [] ∧
      Fabolas.abortState.y = [] ∧ Fabolas.abortState.c = [] ∧
      Fabolas.abortState.incumbents = [] := by
  refine ⟨?_, rfl, rfl, rfl, rfl, rfl⟩
  unfold Fabolas.fabolasRun
  rw [if_pos h1, if_pos h2,
    Fabolas.stateAfter_crash ext p h3 p.num_iterations (le_trans h3 h1)]
  rfl

/-- Witness for C2 at `n_init = 1`, `num_iterations = 2`. -/
theorem C2_first_round_typeerror_witness :
    Fabolas.fabolasRun Fabolas.extW Fabolas.pW2 =
        .error (.typeError, Fabolas.abortState) ∧
      Fabolas.abortState.trace.objCalls = 1 ∧ Fabolas.abortState.X = [] ∧
      Fabolas.abortState.y = [] ∧ Fabolas.abortState.c = [] ∧
      Fabolas.abortState.incumbents = [] :=
  C2_first_round_typeerror Fabolas.extW Fabolas.pW2 (by decide) rfl (by decide)

/-- C4: if `n_init > num_iterations` or the bound vectors have different
lengths, the run fails at the asserts (lines 62-63), before the objective
is ever invoked and before any model is created or trained. -/
theorem C4_precondition_failfast (ext : Fabolas.Externals) (p : Fabolas.Params)
    (h : p.num_iterations < p.n_init ∨ p.lower.length ≠ p.upper.length) :
    Fabolas.fabolasRun ext p = .error (.assertionError, Fabolas.initState) ∧
      Fabolas.initState.trace.objCalls = 0 ∧
      Fabolas.initState.trace.modelsCreated = 0 ∧
      Fabolas.initState.trace.trainCalls = 0 := by
  refine ⟨?_, rfl, rfl, rfl⟩
  unfold Fabolas.fabolasRun
  rcases h with h | h
  · rw [if_neg (by omega)]
  · by_cases h1 : p.n_init ≤ p.num_iterations
    · rw [if_pos h1, if_neg h]
    · rw [if_neg h1]

/-- Witness for C4 at `n_init = 5`, `num_iterations = 3`. -/
theorem C4_precondition_failfast_witness :
    Fabolas.fabolasRun Fabolas.extW Fabolas.pW4 =
        .error (.assertionError, Fabolas.initState) ∧
      Fabolas.initState.trace.objCalls = 0 ∧
      Fabolas.initState.trace.modelsCreated = 0 ∧
      Fabolas.initState.trace.trainCalls = 0 :=
  C4_precondition_failfast Fabolas.extW Fabolas.pW4 (Or.inl (by decide))

/-- C5 (code bug): the spec says every completed round grows `X`, `y`,
`c` and the trajectory by one entry each, plus one trajectory entry at
finalization — but the code never completes a single round on any input:
round 0 aborts with `TypeError` at line 185 when `n_init ≥ 1` and with
`IndexError` at line 213's `X[:, :-1]` on the empty shape-`(0,)` store
when `n_init = 0`, so no state after one or more rounds is ever reached
and no run ever returns.  Evaluated concretely at `n_init = 0`,
`num_iterations = 2`: the run aborts in its first round with the store
and the trajectory still empty. -/
theorem C5_no_round_ever_completes :
    (∀ (ext : Fabolas.Externals) (p : Fabolas.Params) (k : ℕ),
        Fabolas.exOk (Fabolas.stateAfter ext p (k + 1)) = false) ∧
    (∀ (ext : Fabolas.Externals) (p : Fabolas.Params),
        Fabolas.exOk (Fabolas.fabolasRun ext p) = false) ∧
    Fabolas.fabolasRun Fabolas.extW Fabolas.pW5 =
        .error (.indexError, Fabolas.guidedAbortState) ∧
    Fabolas.guidedAbortState.X = [] ∧ Fabolas.guidedAbortState.y = [] ∧
    Fabolas.guidedAbortState.c = [] ∧ Fabolas.guidedAbortState.incumbents = [] := by
  refine ⟨?_, ?_, rfl, rfl, rfl, rfl, rfl⟩
  · intro ext p k
    by_cases hn : 1 ≤ p.n_init
    · rw [Fabolas.stateAfter_crash ext p hn (k + 1) (by omega)]
      rfl
    · rw [Fabolas.stateAfter_guided_crash ext p (by omega) (k + 1) (by omega)]
      rfl
  · intro ext p
    rcases Fabolas.fabolasRun_error_cases ext p with h | h | h | h <;> rw [h] <;> rfl

/-- C6 (code bug): the spec says finalization appends an incumbent whose
last coordinate is forced to exactly `s_max` and returns its
configuration as `x_opt` — but finalization never completes on any input:
runs with `n_init ≥ 1` abort with `TypeError` at line 185, and runs with
`n_init = 0` abort with `IndexError` at `X[:, :-1]` (line 244, or already
line 213 when guided rounds exist) before the projection, the override at
line 246 and the append ever execute, so the trajectory is empty in every
outcome and no Run Result exists.  Evaluated concretely at `n_init = 0`,
`num_iterations = 0`: the run aborts in finalization with an empty
trajectory. -/
theorem C6_finalization_unreachable :
    (∀ (ext : Fabolas.Externals) (p : Fabolas.Params),
        (Fabolas.outState (Fabolas.fabolasRun ext p)).incumbents = []) ∧
    Fabolas.fabolasRun Fabolas.extW Fabolas.pW6 =
        .error (.indexError, Fabolas.finalAbortState) ∧
    Fabolas.finalAbortState.incumbents = [] ∧
    Fabolas.finalAbortState.trace.estimateProjs = [] := by
  refine ⟨?_, rfl, rfl, rfl⟩
  intro ext p
  rcases Fabolas.fabolasRun_error_cases ext p with h | h | h | h <;> rw [h] <;> rfl

/-- C7 (code bug): the spec says each initial-design round records the
raw-argmin incumbent at fidelity `s_max` (lines 191-193), but the round
aborts with `TypeError` at line 185 before any incumbent is recorded.
Evaluation at `n_init = 2`, `num_iterations = 2`: the run aborts with an
empty trajectory. -/
theorem C7_initial_incumbent_never_recorded :
    Fabolas.fabolasRun Fabolas.extW Fabolas.pW7 =
        .error (.typeError, Fabolas.abortState) ∧
      Fabolas.abortState.incumbents = [] :=
  ⟨rfl, rfl⟩

/-- C8 (amended): the raw fidelity of initial-design round `i` is
`int(s_max / subsets[i % 4])` with the fixed descending divisor schedule
`subsets = [256, 128, 64, 32]`; the selection cycles with period 4, and
within a period the raw fidelities are strictly ascending (for
`s_max ≥ 256`), not descending. -/
theorem C8_fidelity_schedule_cycles_ascending (s_max : ℝ) (i : ℕ)
    (h : 256 ≤ s_max) :
    Fabolas.selectS s_max (i + 4) = Fabolas.selectS s_max i ∧
      Fabolas.selectS s_max 0 < Fabolas.selectS s_max 1 ∧
      Fabolas.selectS s_max 1 < Fabolas.selectS s_max 2 ∧
      Fabolas.selectS s_max 2 < Fabolas.selectS s_max 3 := by
  have hpos : (0 : ℝ) ≤ s_max := le_trans (by norm_num) h
  refine ⟨Fabolas.selectS_period s_max i, ?_, ?_, ?_⟩
  · rw [Fabolas.selectS_zero, Fabolas.selectS_one,
      Fabolas.pyInt_eq_floor (by positivity), Fabolas.pyInt_eq_floor (by positivity),
      show s_max / 128 = 2 * (s_max / 256) by ring]
    exact Fabolas.floor_lt_floor_two_mul ((one_le_div (by norm_num)).2 h)
  · rw [Fabolas.selectS_one, Fabolas.selectS_two,
      Fabolas.pyInt_eq_floor (by positivity), Fabolas.pyInt_eq_floor (by positivity),
      show s_max / 64 = 2 * (s_max / 128) by ring]
    exact Fabolas.floor_lt_floor_two_mul ((one_le_div (by norm_num)).2 (by linarith))
  · rw [Fabolas.selectS_two, Fabolas.selectS_three,
      Fabolas.pyInt_eq_floor (by positivity), Fabolas.pyInt_eq_floor (by positivity),
      show s_max / 32 = 2 * (s_max / 64) by ring]
    exact Fabolas.floor_lt_floor_two_mul ((one_le_div (by norm_num)).2 (by linarith))

/-- Witness for the amended C8 at `s_max = 256`, `i = 0`. -/
theorem C8_fidelity_schedule_cycles_ascending_witness :
    Fabolas.selectS 256 4 = Fabolas.selectS 256 0 ∧
      Fabolas.selectS 256 0 < Fabolas.selectS 256 1 ∧
      Fabolas.selectS 256 1 < Fabolas.selectS 256 2 ∧
      Fabolas.selectS 256 2 < Fabolas.selectS 256 3 :=
  C8_fidelity_schedule_cycles_ascending 256 0 (by norm_num)

/-- Counterexample to C8 as stated: with `s_max = 256` the fidelity of
round 0 is 1 and the fidelity of round 1 is 2, so the sequence of raw
fidelities is not descending. -/
theorem C8_schedule_not_descending :
    Fabolas.selectS 256 0 = 1 ∧ Fabolas.selectS 256 1 = 2 ∧
      ¬ Fabolas.selectS 256 1 ≤ Fabolas.selectS 256 0 := by
  have e0 : Fabolas.selectS 256 0 = 1 := by
    rw [Fabolas.selectS_zero, show ((256 : ℝ) / 256) = ((1 : ℤ) : ℝ) by norm_num,
      Fabolas.pyInt_eq_floor (by norm_num), Int.floor_intCast]
  have e1 : Fabolas.selectS 256 1 = 2 := by
    rw [Fabolas.selectS_one, show ((256 : ℝ) / 128) = ((2 : ℤ) : ℝ) by norm_num,
      Fabolas.pyInt_eq_floor (by norm_num), Int.floor_intCast]
  exact ⟨e0, e1, by rw [e0, e1]; omega⟩

/-- C10 (code bug): lines 214 and 245 literally pass `proj_value = s_max`
(guided rounds) and `proj_value = 1` (finalization) to
`projected_incumbent_estimation` — but neither call is ever executed on
any input: runs with `n_init ≥ 1` abort with `TypeError` at line 185
before any guided round, and runs with `n_init = 0` raise `IndexError`
while evaluating the argument `X[:, :-1]` (line 213, or line 244 when
`num_iterations = 0`) before the estimator is invoked.  In every outcome
the trace of `proj_value` arguments is therefore empty.  Evaluated
concretely at `n_init = 0`, `num_iterations = 1`: the run aborts in its
first guided round with no estimator call recorded. -/
theorem C10_estimator_never_invoked :
    (∀ (ext : Fabolas.Externals) (p : Fabolas.Params),
        (Fabolas.outState (Fabolas.fabolasRun ext p)).trace.estimateProjs = []) ∧
    Fabolas.fabolasRun Fabolas.extW Fabolas.pW10 =
        .error (.indexError, Fabolas.guidedAbortState) ∧
    Fabolas.guidedAbortState.trace.estimateProjs = [] := by
  refine ⟨?_, rfl, rfl⟩
  intro ext p
  rcases Fabolas.fabolasRun_error_cases ext p with h | h | h | h <;> rw [h] <;> rfl
